import Mathlib

/-!
# Verification of the DGL-on-SageMaker notebook suite

Shallow embedding, in Lean 4, of the job-submission glue code in the seven
notebooks of this repository (`dgl_gcmc/mxnet_gcmc.ipynb`,
`dgl_gcn/mxnet_gcn.ipynb`, `dgl_gcn/pytorch_gcn_hypertune.ipynb`,
`dgl_gcn_tox21/pytorch-gcn-tox21.ipynb`,
`dgl_gcn_tox21/pytorch-gcn-tox21-hypertune.ipynb`,
`dgl_kge/kge_mxnet.ipynb`, and the unnamed pytorch_gcn notebook).

Each notebook is a straight-line script: it formats a container image
reference, assembles a hyperparameter dictionary, constructs an estimator
(and possibly a tuner) configuration, and makes exactly one submission
call to the external platform.  We embed the dictionaries as
insertion-ordered association lists (Python `dict` semantics), the
`str.format` calls as a placeholder-substitution function over the
template's characters, and each notebook as a function from an
environment (the values the external world supplies: account id, region,
uploaded code location, and the outcome of the submission call) to a run
trace recording the submission calls made and the final result.
-/

namespace SageMakerDGL

/-! ## Python `str.format` with positional `{}` placeholders -/

/-- Substitute each `{}` occurrence in the template character list with the
next argument, in order; all other characters are copied verbatim.  This is
Python's `str.format` restricted to the automatic-numbering `{}` form, which
is the only form the notebooks use. -/
def pyFormatAux : List Char → List (List Char) → List Char
  | [], _ => []
  | '{' :: '}' :: rest, a :: as => a ++ pyFormatAux rest as
  | '{' :: '}' :: rest, [] => '{' :: '}' :: pyFormatAux rest []
  | c :: rest, as => c :: pyFormatAux rest as

/-- `pyFormat tmpl args` is `tmpl.format(*args)` for `{}`-only templates. -/
def pyFormat (tmpl : String) (args : List String) : String :=
  ⟨pyFormatAux tmpl.data (args.map String.data)⟩

/-- The four-argument image template shared by `pytorch_gcn` (unnamed
notebook) and `mxnet_gcn.ipynb`:
`'{}.dkr.ecr.{}.amazonaws.com/{}:{}'`. -/
def imageTemplate4 : String := "{}.dkr.ecr.{}.amazonaws.com/{}:{}"

/-- The three-argument image template with a fixed `latest` tag used by the
gcmc, kge and tox21 notebooks: `'{}.dkr.ecr.{}.amazonaws.com/{}:latest'`. -/
def imageTemplate3 : String := "{}.dkr.ecr.{}.amazonaws.com/{}:latest"

/-! ## Python values and insertion-ordered dictionaries -/

/-- Values the notebooks place in hyperparameter dictionaries: strings,
integers, decimal literals (`500.0`, `0.1` — no arithmetic is ever done on
them, so we carry them as exact rationals), and booleans. -/
inductive PyVal where
  | str (s : String)
  | int (n : Int)
  | dec (q : ℚ)
  | bool (b : Bool)
deriving DecidableEq, Repr

/-- Python dict assignment `d[k] = v`: update in place if the key is
present (keeping its position), otherwise append at the end. -/
def dictInsert {β : Type} (d : List (String × β)) (k : String) (v : β) :
    List (String × β) :=
  match d with
  | [] => [(k, v)]
  | (k0, v0) :: rest =>
      if k0 = k then (k0, v) :: rest else (k0, v0) :: dictInsert rest k v

/-- Key list of a dictionary, in insertion order. -/
def dictKeys {β : Type} (d : List (String × β)) : List String :=
  d.map Prod.fst

/-- Python dict lookup `d[k]`. -/
def dictGet {β : Type} (d : List (String × β)) (k : String) : Option β :=
  match d with
  | [] => none
  | (k0, v0) :: rest => if k0 = k then some v0 else dictGet rest k

/-! ## Job and tuning configurations

The estimator classes (`sagemaker.estimator.Estimator`,
`sagemaker.pytorch.PyTorch`, `sagemaker.mxnet.estimator.MXNet`) are
external; the notebooks only instantiate them with keyword arguments and
the constructors store those arguments.  We embed a configuration record
holding exactly the arguments the notebooks pass. -/

structure EstimatorCfg where
  image : String
  entry_point : Option String
  source_dir : Option String
  role : String
  train_instance_count : Nat
  train_instance_type : String
  hyperparameters : List (String × PyVal)
deriving DecidableEq, Repr

/-- Parameter ranges from `sagemaker.tuner`, as instantiated by the tuning
notebooks. -/
inductive ParamRange where
  | continuous (lo hi : ℚ)
  | integer (lo hi : Int)
  | categorical (vals : List PyVal)
deriving DecidableEq, Repr

structure TunerCfg where
  estimator : EstimatorCfg
  objective_metric_name : String
  hyperparameter_ranges : List (String × ParamRange)
  metric_definitions : List (String × String)
  max_jobs : Nat
  max_parallel_jobs : Nat
  objective_type : String
deriving DecidableEq, Repr

/-- Modelled from the spec: the `HyperparameterTuner` constructor lives in
the external `sagemaker.tuner` library, not in this repository; per the
spec's data model it takes an optional maximize/minimize direction with
"default maximize".  Both tuning notebooks pass `objectiveType = none`. -/
def mkHyperparameterTuner (estimator : EstimatorCfg)
    (objectiveMetricName : String)
    (hyperparameterRanges : List (String × ParamRange))
    (metricDefinitions : List (String × String))
    (maxJobs maxParallelJobs : Nat)
    (objectiveType : Option String) : TunerCfg :=
  { estimator := estimator
    objective_metric_name := objectiveMetricName
    hyperparameter_ranges := hyperparameterRanges
    metric_definitions := metricDefinitions
    max_jobs := maxJobs
    max_parallel_jobs := maxParallelJobs
    objective_type := objectiveType.getD "Maximize" }

/-! ## Notebook runs

Each notebook is a straight-line cell sequence.  The external world
supplies the account id, region, execution role, the storage location
returned by the code-upload step, and the outcome of the one submission
call; a run produces the list of submission calls made (each with its
configuration and data-channel mapping) and the final result, which is
exactly what the external client returned or raised. -/

/-- Opaque error raised by the external client library. -/
structure PlatformError where
  msg : String
deriving DecidableEq, Repr

/-- Opaque job / tuning-job handle returned by the platform. -/
structure JobHandle where
  name : String
deriving DecidableEq, Repr

structure NotebookEnv where
  account : String
  region : String
  role : String
  codeLocation : String
  fitOutcome : Except PlatformError JobHandle
deriving Repr

/-- One submission call: a training-job submission (`estimator.fit`) or a
tuning submission (`tuner.fit`), with the data-channel mapping passed. -/
inductive SubmitCall where
  | train (cfg : EstimatorCfg) (channels : List (String × String))
  | tune (cfg : TunerCfg) (channels : List (String × String))
deriving DecidableEq, Repr

/-- The data-channel mapping of a submission call. -/
def SubmitCall.channels : SubmitCall → List (String × String)
  | .train _ cs => cs
  | .tune _ cs => cs

def SubmitCall.isTrain : SubmitCall → Bool
  | .train _ _ => true
  | .tune _ _ => false

structure RunTrace where
  submitted : List SubmitCall
  result : Except PlatformError JobHandle
deriving Repr

/-! ### Unnamed notebook (`pytorch_gcn`) -/

/-- Estimator cell of the unnamed pytorch_gcn notebook: formats the image
from account, region, `beta-pytorch-training`, tag `1.3.0-py3-gpu-build`;
params `{'dataset': 'cora'}`; `PyTorch(entry_point='pytorch_gcn.py', ...)`. -/
def pytorchGcnEstimator (env : NotebookEnv) : EstimatorCfg :=
  let image := pyFormat imageTemplate4
    [env.account, env.region, "beta-pytorch-training", "1.3.0-py3-gpu-build"]
  let params := dictInsert ([] : List (String × PyVal)) "dataset" (.str "cora")
  { image := image
    entry_point := some "pytorch_gcn.py"
    source_dir := none
    role := env.role
    train_instance_count := 1
    train_instance_type := "ml.p3.2xlarge"
    hyperparameters := params }

/-- Full run of the unnamed pytorch_gcn notebook: build the estimator, then
`estimator.fit()` — one submission, no data channels. -/
def pytorchGcnRun (env : NotebookEnv) : RunTrace :=
  { submitted := [.train (pytorchGcnEstimator env) []]
    result := env.fitOutcome }

/-! ### `dgl_gcn/mxnet_gcn.ipynb` -/

/-- Estimator cell of `mxnet_gcn.ipynb`: image from account, region,
`beta-mxnet-training`, tag `1.6.0-py3-gpu-build`; params
`{'dataset': 'cora'}`; `MXNet(entry_point='mxnet_gcn.py', ...)`. -/
def mxnetGcnEstimator (env : NotebookEnv) : EstimatorCfg :=
  let image := pyFormat imageTemplate4
    [env.account, env.region, "beta-mxnet-training", "1.6.0-py3-gpu-build"]
  let params := dictInsert ([] : List (String × PyVal)) "dataset" (.str "cora")
  { image := image
    entry_point := some "mxnet_gcn.py"
    source_dir := none
    role := env.role
    train_instance_count := 1
    train_instance_type := "ml.p3.2xlarge"
    hyperparameters := params }

/-- Full run of `mxnet_gcn.ipynb`: one `estimator.fit()` call, no
channels. -/
def mxnetGcnRun (env : NotebookEnv) : RunTrace :=
  { submitted := [.train (mxnetGcnEstimator env) []]
    result := env.fitOutcome }

/-! ### `dgl_gcmc/mxnet_gcmc.ipynb` -/

/-- Estimator cell of `mxnet_gcmc.ipynb`: image from account, region,
`sagemaker-dgl-gcmc`, fixed tag `latest`; params `data_name`, `save_dir`;
`MXNet(entry_point='train.py', source_dir='../dgl_gcmc', ...)`. -/
def gcmcEstimator (env : NotebookEnv) : EstimatorCfg :=
  let image := pyFormat imageTemplate3
    [env.account, env.region, "sagemaker-dgl-gcmc"]
  let params := dictInsert
    (dictInsert ([] : List (String × PyVal)) "data_name" (.str "ml-1m"))
    "save_dir" (.str "/opt/ml/model/")
  { image := image
    entry_point := some "train.py"
    source_dir := some "../dgl_gcmc"
    role := env.role
    train_instance_count := 1
    train_instance_type := "ml.p3.2xlarge"
    hyperparameters := params }

/-- Full run of `mxnet_gcmc.ipynb`: one `estimator.fit()` call, no
channels. -/
def gcmcRun (env : NotebookEnv) : RunTrace :=
  { submitted := [.train (gcmcEstimator env) []]
    result := env.fitOutcome }

/-! ### `dgl_kge/kge_mxnet.ipynb` -/

/-- Hyperparameter dictionary of `kge_mxnet.ipynb`, assembled by twelve
successive `params[...] = ...` assignments starting from `{}`. -/
def kgeParams : List (String × PyVal) :=
  dictInsert (dictInsert (dictInsert (dictInsert (dictInsert (dictInsert
    (dictInsert (dictInsert (dictInsert (dictInsert (dictInsert (dictInsert
      ([] : List (String × PyVal))
      "dataset" (.str "FB15k"))
      "model" (.str "DistMult"))
      "batch_size" (.int 1024))
      "neg_sample_size" (.int 256))
      "hidden_dim" (.int 2000))
      "gamma" (.dec 500))
      "lr" (.dec (1 / 10)))
      "max_step" (.int 100000))
      "batch_size_eval" (.int 16))
      "valid" (.bool true))
      "test" (.bool true))
      "neg_adversarial_sampling" (.bool true)

/-- Estimator cell of `kge_mxnet.ipynb`:
`MXNet(entry_point='train.py', source_dir='./', ...)` with the image
formatted from `sagemaker-dgl-kge-mxnet` and tag `latest`. -/
def kgeEstimator (env : NotebookEnv) : EstimatorCfg :=
  let image := pyFormat imageTemplate3
    [env.account, env.region, "sagemaker-dgl-kge-mxnet"]
  { image := image
    entry_point := some "train.py"
    source_dir := some "./"
    role := env.role
    train_instance_count := 1
    train_instance_type := "ml.p3.2xlarge"
    hyperparameters := kgeParams }

/-- Full run of `kge_mxnet.ipynb`: one `estimator.fit(logs=True,
wait=True)` call, no channels. -/
def kgeRun (env : NotebookEnv) : RunTrace :=
  { submitted := [.train (kgeEstimator env) []]
    result := env.fitOutcome }

/-! ### `dgl_gcn_tox21/pytorch-gcn-tox21.ipynb` -/

/-- Estimator cell of `pytorch-gcn-tox21.ipynb`: the generic
`sagemaker.estimator.Estimator(image, role, ...)` — no `entry_point`
argument; the entry point travels inside the hyperparameter dict as
`{'entrypoint': 'main.py'}` (`CODE_PATH = 'main.py'`). -/
def tox21Estimator (env : NotebookEnv) : EstimatorCfg :=
  let image := pyFormat imageTemplate3
    [env.account, env.region, "sagemaker-dgl-pytorch-gcn-tox21"]
  { image := image
    entry_point := none
    source_dir := none
    role := env.role
    train_instance_count := 1
    train_instance_type := "ml.p3.2xlarge"
    hyperparameters := [("entrypoint", .str "main.py")] }

/-- Full run of `pytorch-gcn-tox21.ipynb`: code upload returns
`env.codeLocation`, then one `estimator.fit({'training-code':
code_location})` call. -/
def tox21Run (env : NotebookEnv) : RunTrace :=
  let code_location := env.codeLocation
  { submitted := [.train (tox21Estimator env) [("training-code", code_location)]]
    result := env.fitOutcome }

/-! ### `dgl_gcn/pytorch_gcn_hypertune.ipynb` -/

/-- Estimator cell of `pytorch_gcn_hypertune.ipynb` — identical arguments
to the unnamed pytorch_gcn notebook's estimator. -/
def gcnHypertuneEstimator (env : NotebookEnv) : EstimatorCfg :=
  let image := pyFormat imageTemplate4
    [env.account, env.region, "beta-pytorch-training", "1.3.0-py3-gpu-build"]
  let params := dictInsert ([] : List (String × PyVal)) "dataset" (.str "cora")
  { image := image
    entry_point := some "pytorch_gcn.py"
    source_dir := none
    role := env.role
    train_instance_count := 1
    train_instance_type := "ml.p3.2xlarge"
    hyperparameters := params }

/-- Range cell: `{'lr': ContinuousParameter(0.001, 0.01), 'n-epochs':
IntegerParameter(100, 200)}`. -/
def gcnHypertuneRanges : List (String × ParamRange) :=
  [("lr", .continuous (1 / 1000) (1 / 100)),
   ("n-epochs", .integer 100 200)]

/-- Metric cell: objective `Validation-accuracy`, regex
`Test Accuracy ([0-9\.]+)%`. -/
def gcnHypertuneMetricDefinitions : List (String × String) :=
  [("Validation-accuracy", "Test Accuracy ([0-9\\.]+)%")]

/-- Tuner cell: `HyperparameterTuner(estimator, objective_metric_name,
hyperparameter_ranges, metric_definitions, max_jobs=6,
max_parallel_jobs=2)` — no direction argument. -/
def gcnHypertuneTuner (env : NotebookEnv) : TunerCfg :=
  mkHyperparameterTuner (gcnHypertuneEstimator env) "Validation-accuracy"
    gcnHypertuneRanges gcnHypertuneMetricDefinitions 6 2 none

/-- Full run of `pytorch_gcn_hypertune.ipynb`: upload returns
`env.codeLocation`, the channel dict starts empty and receives one
assignment `data['training-code'] = code_location`, then the notebook makes
one `tuner.fit(inputs=data)` call. -/
def gcnHypertuneRun (env : NotebookEnv) : RunTrace :=
  let code_location := env.codeLocation
  let data := dictInsert ([] : List (String × String)) "training-code" code_location
  { submitted := [.tune (gcnHypertuneTuner env) data]
    result := env.fitOutcome }

/-! ### `dgl_gcn_tox21/pytorch-gcn-tox21-hypertune.ipynb` -/

/-- Estimator cell of `pytorch-gcn-tox21-hypertune.ipynb` — identical
arguments to `pytorch-gcn-tox21.ipynb`'s estimator. -/
def tox21HypertuneEstimator (env : NotebookEnv) : EstimatorCfg :=
  let image := pyFormat imageTemplate3
    [env.account, env.region, "sagemaker-dgl-pytorch-gcn-tox21"]
  { image := image
    entry_point := none
    source_dir := none
    role := env.role
    train_instance_count := 1
    train_instance_type := "ml.p3.2xlarge"
    hyperparameters := [("entrypoint", .str "main.py")] }

/-- Range cell: `{'lr': ContinuousParameter(1e-4, 1e-2), 'patience':
IntegerParameter(5, 30), 'n_hidden': CategoricalParameter([32, 64,
128])}`. -/
def tox21HypertuneRanges : List (String × ParamRange) :=
  [("lr", .continuous (1 / 10000) (1 / 100)),
   ("patience", .integer 5 30),
   ("n_hidden", .categorical [.int 32, .int 64, .int 128])]

/-- Metric cell: objective `Validation_roc_auc`, regex
`Best validation score ([0-9\.]+)`. -/
def tox21HypertuneMetricDefinitions : List (String × String) :=
  [("Validation_roc_auc", "Best validation score ([0-9\\.]+)")]

/-- Tuner cell — again no direction argument. -/
def tox21HypertuneTuner (env : NotebookEnv) : TunerCfg :=
  mkHyperparameterTuner (tox21HypertuneEstimator env) "Validation_roc_auc"
    tox21HypertuneRanges tox21HypertuneMetricDefinitions 6 2 none

/-- Full run of `pytorch-gcn-tox21-hypertune.ipynb`: one
`tuner.fit(inputs={'training-code': code_location})` call. -/
def tox21HypertuneRun (env : NotebookEnv) : RunTrace :=
  let code_location := env.codeLocation
  { submitted := [.tune (tox21HypertuneTuner env) [("training-code", code_location)]]
    result := env.fitOutcome }

/-! ## The metric-extraction regex of `pytorch_gcn_hypertune.ipynb`

The tuner's metric definition uses the Python regular expression
`Test Accuracy ([0-9\.]+)%`, applied to log lines with `re.search`
semantics: leftmost match, greedy `+`.  For this particular pattern no
backtracking can occur (shortening the greedy `[0-9\.]+` run leaves the
next character inside the class, never `%`), so the match at a position is:
strip the literal `Test Accuracy `, take the maximal nonempty run of
digits/dots, and require a `%` immediately after; the search tries
positions left to right. -/

/-- Character class `[0-9\.]`. -/
def inNumClass (c : Char) : Bool := c.isDigit || c = '.'

/-- Strip a literal character sequence from the front of the input. -/
def stripLit : List Char → List Char → Option (List Char)
  | [], cs => some cs
  | _ :: _, [] => none
  | l :: ls, c :: cs => if c = l then stripLit ls cs else none

/-- The literal part of the pattern: `Test Accuracy `. -/
def testAccuracyLit : List Char := "Test Accuracy ".data

/-- Match `Test Accuracy ([0-9\.]+)%` anchored at the head of the input,
returning the captured group. -/
def testAccuracyMatchAt (cs : List Char) : Option (List Char) :=
  match stripLit testAccuracyLit cs with
  | none => none
  | some rest =>
      let g := rest.takeWhile inNumClass
      match g, rest.dropWhile inNumClass with
      | [], _ => none
      | _ :: _, '%' :: _ => some g
      | _ :: _, _ => none

/-- `re.search`: try the anchored match at each position, left to right.
(The attempt at the empty remainder always fails since the literal part of
the pattern is nonempty, so stopping at `[]` is equivalent.) -/
def reSearchTestAccuracy : List Char → Option (List Char)
  | [] => none
  | c :: cs =>
      match testAccuracyMatchAt (c :: cs) with
      | some g => some g
      | none => reSearchTestAccuracy cs

/-- Apply the tuning notebook's metric-extraction regex to a log line,
returning the captured group of the leftmost match, if any. -/
def extractTestAccuracy (line : String) : Option String :=
  (reSearchTestAccuracy line.data).map fun g => ⟨g⟩

end SageMakerDGL

namespace SageMakerDGL

theorem pyFormat4_eq (a r n t : String) :
    pyFormat imageTemplate4 [a, r, n, t] =
      a ++ ".dkr.ecr." ++ r ++ ".amazonaws.com/" ++ n ++ ":" ++ t := by
  apply String.ext
  simp [pyFormat, imageTemplate4, pyFormatAux, String.data_append]

theorem pyFormat3_eq (a r n : String) :
    pyFormat imageTemplate3 [a, r, n] =
      a ++ ".dkr.ecr." ++ r ++ ".amazonaws.com/" ++ n ++ ":latest" := by
  apply String.ext
  simp [pyFormat, imageTemplate3, pyFormatAux, String.data_append]

/-! ## Lemmas about the metric-extraction regex -/

theorem stripLit_append (lit rest : List Char) :
    stripLit lit (lit ++ rest) = some rest := by
  induction lit with
  | nil => rfl
  | cons c cs ih => simp [stripLit, ih]

/-- The anchored match succeeds on the target text followed by anything:
the `%` terminates the greedy numeric run regardless of what follows. -/
theorem matchAt_target (s : List Char) :
    testAccuracyMatchAt ("Test Accuracy 91.2%".data ++ s) = some "91.2".data := rfl

/-- `re.search` succeeds whenever the anchored match succeeds at some
position. -/
theorem reSearch_isSome_of_matchAt (p rest : List Char) (g : List Char)
    (h : testAccuracyMatchAt rest = some g) :
    (reSearchTestAccuracy (p ++ rest)).isSome = true := by
  induction p with
  | nil =>
      cases rest with
      | nil => simp [show testAccuracyMatchAt [] = none from rfl] at h
      | cons c cs =>
          show (reSearchTestAccuracy (c :: cs)).isSome = true
          simp [reSearchTestAccuracy, h]
  | cons a p' ih =>
      have hstep : reSearchTestAccuracy ((a :: p') ++ rest) =
          match testAccuracyMatchAt (a :: (p' ++ rest)) with
          | some g => some g
          | none => reSearchTestAccuracy (p' ++ rest) := rfl
      rw [hstep]
      cases hm : testAccuracyMatchAt (a :: (p' ++ rest)) with
      | some g' => rfl
      | none => simpa using ih

/-- When the anchored match fails at every position strictly before the
occurrence, `re.search` returns exactly the group captured there (leftmost
match semantics). -/
theorem reSearch_eq_of_first (p rest : List Char) (g : List Char)
    (hmatch : testAccuracyMatchAt rest = some g)
    (hfirst : ∀ i, i < p.length → testAccuracyMatchAt ((p ++ rest).drop i) = none) :
    reSearchTestAccuracy (p ++ rest) = some g := by
  induction p with
  | nil =>
      cases rest with
      | nil => simp [show testAccuracyMatchAt [] = none from rfl] at hmatch
      | cons c cs =>
          show reSearchTestAccuracy (c :: cs) = some g
          simp [reSearchTestAccuracy, hmatch]
  | cons a p' ih =>
      have h0 : testAccuracyMatchAt (a :: (p' ++ rest)) = none := by
        simpa using hfirst 0 (by simp)
      have hstep : reSearchTestAccuracy ((a :: p') ++ rest) =
          match testAccuracyMatchAt (a :: (p' ++ rest)) with
          | some g => some g
          | none => reSearchTestAccuracy (p' ++ rest) := rfl
      rw [hstep, h0]
      exact ih (fun i hi => by
        have := hfirst (i + 1) (by simpa using Nat.succ_lt_succ hi)
        simpa using this)

/-! ## Sample environment used by the witness instantiations -/

def sampleEnv : NotebookEnv :=
  { account := "123456789012"
    region := "us-east-1"
    role := "SageMakerRole"
    codeLocation := "s3://bucket/customcode"
    fitOutcome := Except.ok ⟨"job-1"⟩ }

def deniedEnv : NotebookEnv :=
  { account := "123456789012"
    region := "us-east-1"
    role := "SageMakerRole"
    codeLocation := "s3://bucket/customcode"
    fitOutcome := Except.error ⟨"AccessDeniedException"⟩ }

/-! ## The claims -/

/-- C1: for every account `a`, region `r`, repository `n` and tag `t`, the
image reference the notebooks build by `str.format` equals
`a ++ ".dkr.ecr." ++ r ++ ".amazonaws.com/" ++ n ++ ":" ++ t` — each
component exactly once, in order, with the literal registry-host text
between them; the three-argument template is the same with the fixed tag
`latest`, and the two cited notebooks' image fields are instances. -/
theorem c1_image_reference_format (a r n t : String) (env : NotebookEnv) :
    pyFormat imageTemplate4 [a, r, n, t] =
      a ++ ".dkr.ecr." ++ r ++ ".amazonaws.com/" ++ n ++ ":" ++ t ∧
    pyFormat imageTemplate3 [a, r, n] =
      a ++ ".dkr.ecr." ++ r ++ ".amazonaws.com/" ++ n ++ ":latest" ∧
    (pytorchGcnEstimator env).image =
      env.account ++ ".dkr.ecr." ++ env.region ++ ".amazonaws.com/" ++
        "beta-pytorch-training" ++ ":" ++ "1.3.0-py3-gpu-build" ∧
    (mxnetGcnEstimator env).image =
      env.account ++ ".dkr.ecr." ++ env.region ++ ".amazonaws.com/" ++
        "beta-mxnet-training" ++ ":" ++ "1.6.0-py3-gpu-build" :=
  ⟨pyFormat4_eq a r n t, pyFormat3_eq a r n,
   pyFormat4_eq env.account env.region "beta-pytorch-training" "1.3.0-py3-gpu-build",
   pyFormat4_eq env.account env.region "beta-mxnet-training" "1.6.0-py3-gpu-build"⟩

theorem c1_image_reference_format_witness :
    pyFormat imageTemplate4
        ["123456789012", "us-east-1", "beta-pytorch-training", "1.3.0-py3-gpu-build"] =
      "123456789012" ++ ".dkr.ecr." ++ "us-east-1" ++ ".amazonaws.com/" ++
        "beta-pytorch-training" ++ ":" ++ "1.3.0-py3-gpu-build" :=
  (c1_image_reference_format "123456789012" "us-east-1" "beta-pytorch-training"
    "1.3.0-py3-gpu-build" sampleEnv).1

/-- C2: the hyperparameter mapping the estimator constructor receives — and
that the single submission call carries — is exactly the mapping the
notebook assembled: for `kge_mxnet.ipynb` the twelve-entry dictionary built
by successive assignments, with its exact key order and uncoerced values,
and for the unnamed pytorch_gcn notebook the one-entry `dataset ↦ cora`
dictionary. -/
theorem c2_hyperparameters_exact (env : NotebookEnv) :
    kgeParams =
      [("dataset", PyVal.str "FB15k"), ("model", PyVal.str "DistMult"),
       ("batch_size", PyVal.int 1024), ("neg_sample_size", PyVal.int 256),
       ("hidden_dim", PyVal.int 2000), ("gamma", PyVal.dec 500),
       ("lr", PyVal.dec (1 / 10)), ("max_step", PyVal.int 100000),
       ("batch_size_eval", PyVal.int 16), ("valid", PyVal.bool true),
       ("test", PyVal.bool true), ("neg_adversarial_sampling", PyVal.bool true)] ∧
    (kgeRun env).submitted = [SubmitCall.train (kgeEstimator env) []] ∧
    (kgeEstimator env).hyperparameters = kgeParams ∧
    (pytorchGcnRun env).submitted = [SubmitCall.train (pytorchGcnEstimator env) []] ∧
    (pytorchGcnEstimator env).hyperparameters = [("dataset", PyVal.str "cora")] :=
  ⟨rfl, rfl, rfl, rfl, rfl⟩

theorem c2_hyperparameters_exact_witness :
    (kgeEstimator sampleEnv).hyperparameters = kgeParams :=
  (c2_hyperparameters_exact sampleEnv).2.2.1

/-- C3: in both tuning notebooks the tuner configuration at the moment of
submission has `max_parallel_jobs = 2 ≤ 6 = max_jobs`, and the submitted
tuner is exactly the constructed one. -/
theorem c3_parallel_le_total (env : NotebookEnv) :
    (gcnHypertuneTuner env).max_parallel_jobs ≤ (gcnHypertuneTuner env).max_jobs ∧
    (gcnHypertuneTuner env).max_parallel_jobs = 2 ∧
    (gcnHypertuneTuner env).max_jobs = 6 ∧
    (gcnHypertuneRun env).submitted =
      [SubmitCall.tune (gcnHypertuneTuner env) [("training-code", env.codeLocation)]] ∧
    (tox21HypertuneTuner env).max_parallel_jobs ≤ (tox21HypertuneTuner env).max_jobs ∧
    (tox21HypertuneTuner env).max_parallel_jobs = 2 ∧
    (tox21HypertuneTuner env).max_jobs = 6 ∧
    (tox21HypertuneRun env).submitted =
      [SubmitCall.tune (tox21HypertuneTuner env) [("training-code", env.codeLocation)]] :=
  ⟨(by decide : (2 : Nat) ≤ 6), rfl, rfl, rfl,
   (by decide : (2 : Nat) ≤ 6), rfl, rfl, rfl⟩

theorem c3_parallel_le_total_witness :
    (gcnHypertuneTuner sampleEnv).max_parallel_jobs ≤
      (gcnHypertuneTuner sampleEnv).max_jobs :=
  (c3_parallel_le_total sampleEnv).1

/-- C4 (amended): applying the GCN tuning notebook's metric-extraction
regex `Test Accuracy ([0-9\.]+)%` to any log line containing the text
`Test Accuracy 91.2%` succeeds; and when the anchored pattern matches at
no position strictly before that occurrence — in particular on the line
`Test Accuracy 91.2%` itself — the captured group is exactly the string
`91.2`.  (As originally stated the group claim fails on lines where an
earlier occurrence of the pattern matches first; see the
counterexample.) -/
theorem c4_metric_regex_extraction (line : String) (p s : List Char)
    (hocc : line.data = p ++ "Test Accuracy 91.2%".data ++ s) :
    (extractTestAccuracy line).isSome = true ∧
    ((∀ i, i < p.length → testAccuracyMatchAt (line.data.drop i) = none) →
      extractTestAccuracy line = some "91.2") := by
  have hassoc : line.data = p ++ ("Test Accuracy 91.2%".data ++ s) := by
    rw [hocc, List.append_assoc]
  constructor
  · unfold extractTestAccuracy
    rw [hassoc]
    have h := reSearch_isSome_of_matchAt p ("Test Accuracy 91.2%".data ++ s)
      "91.2".data (matchAt_target s)
    cases hr : reSearchTestAccuracy (p ++ ("Test Accuracy 91.2%".data ++ s)) with
    | none => rw [hr] at h; simp at h
    | some g => simp [hr]
  · intro hfirst
    have hfirst' : ∀ i, i < p.length →
        testAccuracyMatchAt ((p ++ ("Test Accuracy 91.2%".data ++ s)).drop i) = none := by
      intro i hi
      have := hfirst i hi
      rwa [hassoc] at this
    unfold extractTestAccuracy
    rw [hassoc, reSearch_eq_of_first p ("Test Accuracy 91.2%".data ++ s)
      "91.2".data (matchAt_target s) hfirst']
    rfl

theorem c4_metric_regex_extraction_witness :
    ("epoch 3: Test Accuracy 91.2% done" : String).data =
      "epoch 3: ".data ++ "Test Accuracy 91.2%".data ++ " done".data ∧
    (extractTestAccuracy "epoch 3: Test Accuracy 91.2% done").isSome = true ∧
    extractTestAccuracy "epoch 3: Test Accuracy 91.2% done" = some "91.2" := by
  have h := c4_metric_regex_extraction "epoch 3: Test Accuracy 91.2% done"
    "epoch 3: ".data " done".data rfl
  exact ⟨rfl, h.1, h.2 (by decide)⟩

/-- C4 counterexample to the original universal statement: the line
`Test Accuracy 1% then Test Accuracy 91.2%` contains the text
`Test Accuracy 91.2%`, extraction succeeds, but the leftmost match
captures `1`, not `91.2`. -/
theorem c4_metric_regex_counterexample :
    (∃ p s : List Char,
      ("Test Accuracy 1% then Test Accuracy 91.2%" : String).data =
        p ++ "Test Accuracy 91.2%".data ++ s) ∧
    extractTestAccuracy "Test Accuracy 1% then Test Accuracy 91.2%" = some "1" ∧
    extractTestAccuracy "Test Accuracy 1% then Test Accuracy 91.2%" ≠ some "91.2" := by
  refine ⟨⟨"Test Accuracy 1% then ".data, [], by decide⟩, rfl, by decide⟩

/-- C5: no notebook catches, retries, classifies or transforms a submission
failure: whenever the external client's submission call raises an error,
every notebook run's result is that very error, unchanged. -/
theorem c5_error_propagation (env : NotebookEnv) (e : PlatformError)
    (h : env.fitOutcome = Except.error e) :
    (pytorchGcnRun env).result = Except.error e ∧
    (mxnetGcnRun env).result = Except.error e ∧
    (gcmcRun env).result = Except.error e ∧
    (kgeRun env).result = Except.error e ∧
    (tox21Run env).result = Except.error e ∧
    (gcnHypertuneRun env).result = Except.error e ∧
    (tox21HypertuneRun env).result = Except.error e :=
  ⟨h, h, h, h, h, h, h⟩

theorem c5_error_propagation_witness :
    deniedEnv.fitOutcome = Except.error ⟨"AccessDeniedException"⟩ ∧
    (pytorchGcnRun deniedEnv).result = Except.error ⟨"AccessDeniedException"⟩ :=
  ⟨rfl, (c5_error_propagation deniedEnv ⟨"AccessDeniedException"⟩ rfl).1⟩

/-- C6: each non-tuning training notebook makes exactly one submission
call, on exactly one job configuration: its run trace is the singleton of
its constructed estimator. -/
theorem c6_single_submission (env : NotebookEnv) :
    (pytorchGcnRun env).submitted = [SubmitCall.train (pytorchGcnEstimator env) []] ∧
    (mxnetGcnRun env).submitted = [SubmitCall.train (mxnetGcnEstimator env) []] ∧
    (gcmcRun env).submitted = [SubmitCall.train (gcmcEstimator env) []] ∧
    (kgeRun env).submitted = [SubmitCall.train (kgeEstimator env) []] ∧
    (tox21Run env).submitted =
      [SubmitCall.train (tox21Estimator env) [("training-code", env.codeLocation)]] ∧
    (pytorchGcnRun env).submitted.length = 1 ∧
    (mxnetGcnRun env).submitted.length = 1 ∧
    (gcmcRun env).submitted.length = 1 ∧
    (kgeRun env).submitted.length = 1 ∧
    (tox21Run env).submitted.length = 1 :=
  ⟨rfl, rfl, rfl, rfl, rfl, rfl, rfl, rfl, rfl, rfl⟩

theorem c6_single_submission_witness :
    (kgeRun sampleEnv).submitted.length = 1 :=
  (c6_single_submission sampleEnv).2.2.2.2.2.2.2.2.1

/-- C7: both tuning notebooks construct their tuner without a direction
argument, and the resulting configuration's objective direction is the
default, maximize. -/
theorem c7_default_maximize (env : NotebookEnv) :
    gcnHypertuneTuner env =
      mkHyperparameterTuner (gcnHypertuneEstimator env) "Validation-accuracy"
        gcnHypertuneRanges gcnHypertuneMetricDefinitions 6 2 none ∧
    tox21HypertuneTuner env =
      mkHyperparameterTuner (tox21HypertuneEstimator env) "Validation_roc_auc"
        tox21HypertuneRanges tox21HypertuneMetricDefinitions 6 2 none ∧
    (gcnHypertuneTuner env).objective_type = "Maximize" ∧
    (tox21HypertuneTuner env).objective_type = "Maximize" :=
  ⟨rfl, rfl, rfl, rfl⟩

theorem c7_default_maximize_witness :
    (gcnHypertuneTuner sampleEnv).objective_type = "Maximize" :=
  (c7_default_maximize sampleEnv).2.2.1

/-- C8: every notebook that passes data channels to its submission call
binds exactly the one channel name `training-code`, whose value is the
location returned by the code-upload step; the other notebooks pass no
channels. -/
theorem c8_training_code_channel (env : NotebookEnv) :
    (gcnHypertuneRun env).submitted.map SubmitCall.channels =
      [[("training-code", env.codeLocation)]] ∧
    (tox21Run env).submitted.map SubmitCall.channels =
      [[("training-code", env.codeLocation)]] ∧
    (tox21HypertuneRun env).submitted.map SubmitCall.channels =
      [[("training-code", env.codeLocation)]] ∧
    (pytorchGcnRun env).submitted.map SubmitCall.channels = [[]] ∧
    (mxnetGcnRun env).submitted.map SubmitCall.channels = [[]] ∧
    (gcmcRun env).submitted.map SubmitCall.channels = [[]] ∧
    (kgeRun env).submitted.map SubmitCall.channels = [[]] :=
  ⟨rfl, rfl, rfl, rfl, rfl, rfl, rfl⟩

theorem c8_training_code_channel_witness :
    (tox21Run sampleEnv).submitted.map SubmitCall.channels =
      [[("training-code", "s3://bucket/customcode")]] :=
  (c8_training_code_channel sampleEnv).2.1

/-- C9: both tox21 notebooks deliver the entry point through the
hyperparameter mapping — which is exactly the one-entry dictionary
`entrypoint ↦ main.py` — while the configuration's dedicated entry-point
field is not set. -/
theorem c9_entrypoint_via_hyperparameters (env : NotebookEnv) :
    (tox21Estimator env).hyperparameters = [("entrypoint", PyVal.str "main.py")] ∧
    (tox21Estimator env).entry_point = none ∧
    (tox21HypertuneEstimator env).hyperparameters =
      [("entrypoint", PyVal.str "main.py")] ∧
    (tox21HypertuneEstimator env).entry_point = none :=
  ⟨rfl, rfl, rfl, rfl⟩

theorem c9_entrypoint_via_hyperparameters_witness :
    (tox21Estimator sampleEnv).hyperparameters =
      [("entrypoint", PyVal.str "main.py")] :=
  (c9_entrypoint_via_hyperparameters sampleEnv).1

/-- C10: in each tuning notebook the tuner's range keys are disjoint from
the fixed hyperparameter keys of the wrapped job configuration:
`lr, n-epochs` vs `dataset` in the GCN notebook and `lr, patience,
n_hidden` vs `entrypoint` in the tox21 notebook. -/
theorem c10_ranges_disjoint_from_fixed (env : NotebookEnv) :
    dictKeys (gcnHypertuneTuner env).hyperparameter_ranges = ["lr", "n-epochs"] ∧
    dictKeys (gcnHypertuneTuner env).estimator.hyperparameters = ["dataset"] ∧
    List.Disjoint (dictKeys (gcnHypertuneTuner env).hyperparameter_ranges)
      (dictKeys (gcnHypertuneTuner env).estimator.hyperparameters) ∧
    dictKeys (tox21HypertuneTuner env).hyperparameter_ranges =
      ["lr", "patience", "n_hidden"] ∧
    dictKeys (tox21HypertuneTuner env).estimator.hyperparameters = ["entrypoint"] ∧
    List.Disjoint (dictKeys (tox21HypertuneTuner env).hyperparameter_ranges)
      (dictKeys (tox21HypertuneTuner env).estimator.hyperparameters) :=
  ⟨rfl, rfl, (by simp : List.Disjoint ["lr", "n-epochs"] ["dataset"]),
   rfl, rfl,
   (by simp : List.Disjoint ["lr", "patience", "n_hidden"] ["entrypoint"])⟩

theorem c10_ranges_disjoint_from_fixed_witness :
    List.Disjoint (dictKeys (gcnHypertuneTuner sampleEnv).hyperparameter_ranges)
      (dictKeys (gcnHypertuneTuner sampleEnv).estimator.hyperparameters) :=
  (c10_ranges_disjoint_from_fixed sampleEnv).2.2.1

end SageMakerDGL
